import Mathlib

/-!
Verification of the python-coding-hub GraphQL hello-world example.

The repository has two source files:
* `src/GraphQL/Hello-world/server/server.js` — an Apollo GraphQL server
  exposing a single `greeting` field resolved to the constant string
  `Hello world`, listening on port 9001;
* an unnamed browser client defining `fetchGreeting`, which POSTs the query
  document `query { greeting }` to `http://localhost:9001/`, parses the JSON
  response, extracts `data.greeting` and writes it to the text content of the
  DOM element with id `greeting`.

This file gives a shallow embedding of both scripts and proves the spec's
claims about them.  JSON values are modelled by an inductive type, the SDL
string `typeDefs` is embedded character for character and parsed by a small
SDL parser, query documents are parsed from their wire strings, and the
client is modelled as a function from a `fetch` oracle and an initial DOM to
the trace of requests it issues, the final DOM, and whether an exception
propagated uncaught.
-/

set_option autoImplicit false

/-- JSON values, as produced by `JSON.parse` / consumed by `JSON.stringify`. -/
inductive Json where
  | null : Json
  | bool (b : Bool) : Json
  | num (n : Int) : Json
  | str (s : String) : Json
  | arr (elems : List Json) : Json
  | obj (fields : List (String × Json)) : Json
deriving Repr

/-- Key lookup in a JSON value: `some v` when the value is an object with the
key, `none` otherwise. -/
def Json.lookup : Json → String → Option Json
  | Json.obj kvs, k => List.lookup k kvs
  | _, _ => none

/-- JSON string escaping, as performed by `JSON.stringify` for the characters
that actually require escaping. -/
def escapeChar (c : Char) : String :=
  if c = '"' then "\\\""
  else if c = '\\' then "\\\\"
  else if c = '\n' then "\\n"
  else if c = '\t' then "\\t"
  else if c = '\r' then "\\r"
  else String.singleton c

/-- Escape every character of a string for JSON output. -/
def escapeString (s : String) : String :=
  String.join (s.data.map escapeChar)

mutual

/-- `JSON.stringify` on the JSON model. -/
def Json.render : Json → String
  | Json.null => "null"
  | Json.bool b => cond b "true" "false"
  | Json.num n => toString n
  | Json.str s => "\"" ++ escapeString s ++ "\""
  | Json.arr xs => "[" ++ renderElems xs ++ "]"
  | Json.obj kvs => "\x7b" ++ renderFields kvs ++ "\x7d"

/-- Render the comma-separated elements of a JSON array. -/
def renderElems : List Json → String
  | [] => ""
  | [x] => Json.render x
  | x :: xs => Json.render x ++ "," ++ renderElems xs

/-- Render the comma-separated `"key":value` entries of a JSON object. -/
def renderFields : List (String × Json) → String
  | [] => ""
  | [(k, v)] => "\"" ++ escapeString k ++ "\":" ++ Json.render v
  | (k, v) :: kvs =>
      "\"" ++ escapeString k ++ "\":" ++ Json.render v ++ "," ++ renderFields kvs

end

/-! ## The server's schema string and resolvers (from `server.js`) -/

/-- The SDL schema string `typeDefs` of `server.js`, embedded character for
character (braces written with escapes, content identical to the source). -/
def typeDefs : String :=
  "\x23graphql\n    schema \x7b\n        query: Query\n    \x7d\n    type Query \x7b\n        greeting: String \n    \x7d\n"

namespace resolvers
namespace Query

/-- The `greeting` field resolver of `server.js`: a function of no arguments
returning the constant string `Hello world`. -/
def greeting : Unit → String := fun _ => "Hello world"

end Query
end resolvers

/-- The resolver map passed to `ApolloServer`: field name to resolver, with
the single entry for `greeting` on the root query type. -/
def resolverMap : List (String × (Unit → String)) :=
  [("greeting", resolvers.Query.greeting)]

/-! ## SDL tokenizer and parser -/

/-- Tokens of the SDL / query-document surface syntax used by this schema. -/
inductive Tok where
  | lbrace : Tok
  | rbrace : Tok
  | colon : Tok
  | bang : Tok
  | name (s : String) : Tok
deriving Repr, DecidableEq

/-- A character that may appear in a GraphQL name. -/
def isNameChar (c : Char) : Bool :=
  c.isAlpha || c.isDigit || c = '_'

/-- Consume the remaining characters of a name, returning the name and the
rest of the input. -/
def takeNameAux : List Char → String → String × List Char
  | [], acc => (acc, [])
  | c :: cs, acc =>
      if isNameChar c then takeNameAux cs (acc.push c) else (acc, c :: cs)

/-- Skip to just past the next newline (GraphQL comments run to end of line). -/
def skipLine : List Char → List Char
  | [] => []
  | c :: cs => if c = '\n' then cs else skipLine cs

/-- Fuel-indexed tokenizer core; each recursive call consumes at least one
input character, so fuel `length + 1` always suffices. -/
def tokenizeAux : Nat → List Char → Option (List Tok)
  | 0, _ => none
  | _ + 1, [] => some []
  | fuel + 1, c :: cs =>
      if c = '{' then (tokenizeAux fuel cs).map (Tok.lbrace :: ·)
      else if c = '}' then (tokenizeAux fuel cs).map (Tok.rbrace :: ·)
      else if c = ':' then (tokenizeAux fuel cs).map (Tok.colon :: ·)
      else if c = '!' then (tokenizeAux fuel cs).map (Tok.bang :: ·)
      else if c = '#' then tokenizeAux fuel (skipLine cs)
      else if c.isWhitespace || c = ',' then tokenizeAux fuel cs
      else if isNameChar c then
        match takeNameAux cs (String.singleton c) with
        | (s, rest) => (tokenizeAux fuel rest).map (Tok.name s :: ·)
      else none

/-- Tokenize an SDL or query-document string. -/
def tokenize (s : String) : Option (List Tok) :=
  tokenizeAux (s.length + 1) s.data

/-- A field definition `name: Type` (with `!` marking non-null). -/
structure FieldDef where
  fname : String
  ftype : String
  nonNull : Bool
deriving Repr, DecidableEq

/-- An object type definition `type Name { fields }`. -/
structure TypeDef where
  tname : String
  tfields : List FieldDef
deriving Repr, DecidableEq

/-- A parsed SDL document: the root operation types declared by a `schema`
block and the object types. -/
structure Schema where
  queryType : Option String
  mutationType : Option String
  subscriptionType : Option String
  types : List TypeDef
deriving Repr, DecidableEq

/-- Parse the body of a `type` block: a list of field definitions up to the
closing brace. -/
def parseFieldsAux : List Tok → List FieldDef → Option (List FieldDef × List Tok)
  | Tok.rbrace :: rest, acc => some (acc.reverse, rest)
  | Tok.name f :: Tok.colon :: Tok.name t :: Tok.bang :: rest, acc =>
      parseFieldsAux rest (⟨f, t, true⟩ :: acc)
  | Tok.name f :: Tok.colon :: Tok.name t :: rest, acc =>
      parseFieldsAux rest (⟨f, t, false⟩ :: acc)
  | _, _ => none

/-- Parse the body of a `schema` block: `operation: TypeName` entries up to
the closing brace. -/
def parseOpsAux : List Tok → List (String × String) → Option (List (String × String) × List Tok)
  | Tok.rbrace :: rest, acc => some (acc.reverse, rest)
  | Tok.name op :: Tok.colon :: Tok.name t :: rest, acc =>
      parseOpsAux rest ((op, t) :: acc)
  | _, _ => none

/-- Record one root-operation-type declaration on the schema being built;
unknown operation names are rejected. -/
def applyOp (s : Schema) : String × String → Option Schema
  | ("query", t) => some { s with queryType := some t }
  | ("mutation", t) => some { s with mutationType := some t }
  | ("subscription", t) => some { s with subscriptionType := some t }
  | _ => none

/-- Record a list of root-operation-type declarations. -/
def applyOps : List (String × String) → Schema → Option Schema
  | [], s => some s
  | op :: ops, s => (applyOp s op).bind (applyOps ops)

/-- Fuel-indexed top-level SDL definition parser: a sequence of `schema` and
`type` definitions. -/
def parseDefsAux : Nat → List Tok → Schema → Option Schema
  | _, [], s => some s
  | 0, _ :: _, _ => none
  | fuel + 1, Tok.name "schema" :: Tok.lbrace :: rest, s =>
      match parseOpsAux rest [] with
      | some (ops, rest2) =>
          match applyOps ops s with
          | some s2 => parseDefsAux fuel rest2 s2
          | none => none
      | none => none
  | fuel + 1, Tok.name "type" :: Tok.name n :: Tok.lbrace :: rest, s =>
      match parseFieldsAux rest [] with
      | some (fs, rest2) => parseDefsAux fuel rest2 { s with types := s.types ++ [⟨n, fs⟩] }
      | none => none
  | _, _ :: _, _ => none

/-- Parse an SDL document into a `Schema`. -/
def parseSDL (s : String) : Option Schema :=
  (tokenize s).bind fun toks => parseDefsAux (toks.length + 1) toks ⟨none, none, none, []⟩

/-- The schema obtained by parsing the server's `typeDefs` string. -/
def schemaOfServer : Schema :=
  ⟨some "Query", none, none, [⟨"Query", [⟨"greeting", "String", false⟩]⟩]⟩

/-! ## Query-document parser and execution -/

/-- Parse the selection set of a query: field names up to the closing brace
(the schema has only scalar fields, so no nested selections occur). -/
def parseSelAux : List Tok → List String → Option (List String × List Tok)
  | Tok.rbrace :: rest, acc => some (acc.reverse, rest)
  | Tok.name f :: rest, acc => parseSelAux rest (f :: acc)
  | _, _ => none

/-- Parse a GraphQL query document into the list of field names it selects:
either the shorthand `{ fields }` or `query [Name] { fields }`. -/
def parseQueryDoc (s : String) : Option (List String) :=
  match tokenize s with
  | some (Tok.lbrace :: rest) =>
      match parseSelAux rest [] with
      | some (fs, []) => some fs
      | _ => none
  | some (Tok.name "query" :: Tok.lbrace :: rest) =>
      match parseSelAux rest [] with
      | some (fs, []) => some fs
      | _ => none
  | some (Tok.name "query" :: Tok.name _ :: Tok.lbrace :: rest) =>
      match parseSelAux rest [] with
      | some (fs, []) => some fs
      | _ => none
  | _ => none

/-- The field definitions of the schema's root query type, when declared. -/
def Schema.queryFields (s : Schema) : List FieldDef :=
  match s.queryType with
  | some qt =>
      match s.types.find? (fun t => t.tname = qt) with
      | some t => t.tfields
      | none => []
  | none => []

/-- Whether the schema's root query type declares a field of this name. -/
def Schema.hasQueryField (s : Schema) (f : String) : Bool :=
  s.queryFields.any fun fd => fd.fname = f

/-- A standard GraphQL validation-error object for an unknown field. -/
def unknownFieldError (f : String) : Json :=
  Json.obj [("message",
    Json.str ("Cannot query field \"" ++ f ++ "\" on type \"Query\"."))]

/-- Modelled from the spec: the underlying GraphQL execution engine
(`@apollo/server` / graphql-js, third-party code not in this repository).
Per the spec, a valid query is executed by invoking the field resolvers and
wrapping the results in a `data` object, while "any malformed query should
produce a standard GraphQL error response": a query selecting a field not in
the schema yields a response with an `errors` array and no `data`. -/
def executeQuery (s : Schema) (rs : List (String × (Unit → String)))
    (fields : List String) : Json :=
  if fields.all (fun f => s.hasQueryField f) then
    Json.obj [("data", Json.obj (fields.map fun f =>
      (f, match rs.find? (fun p => p.fst = f) with
          | some p => Json.str (p.snd ())
          | none => Json.null)))]
  else
    Json.obj [("errors",
      Json.arr ((fields.filter fun f => !s.hasQueryField f).map unknownFieldError))]

/-- A GraphQL error response with a single message, used for requests that
fail before execution (unparsable body or query). -/
def requestError (msg : String) : Json :=
  Json.obj [("errors", Json.arr [Json.obj [("message", Json.str msg)]])]

/-- The service's handling of one POST request body (already JSON-parsed):
extract the `query` string, parse it, and execute it against the schema
parsed from `typeDefs` with the server's resolver map. -/
def handleRequest (body : Json) : Json :=
  match body.lookup "query" with
  | some (Json.str q) =>
      match parseQueryDoc q with
      | some fields =>
          match parseSDL typeDefs with
          | some s => executeQuery s resolverMap fields
          | none => requestError "GRAPHQL_VALIDATION_FAILED"
      | none => requestError "GRAPHQL_PARSE_FAILED"
  | _ => requestError "BAD_REQUEST"

/-! ## Server startup (`startStandaloneServer` call in `server.js`) -/

/-- Modelled from the spec: `startStandaloneServer` from
`@apollo/server/standalone` (third-party code not in this repository) binds
an HTTP listener on the configured port and resolves with the listening URL. -/
def startStandaloneServer (port : Nat) : Nat × String :=
  (port, "http://localhost:" ++ toString port ++ "/")

/-- The observable effects of the server's startup code: ports bound,
environment variables read, and console lines written. -/
structure StartupTrace where
  boundPorts : List Nat
  envReads : List String
  consoleLines : List String
deriving Repr, DecidableEq

/-- The startup of `server.js`: start the standalone server on the hardcoded
port 9001 and log the returned URL once; no environment variables are read. -/
def serverStartup : StartupTrace :=
  match startStandaloneServer 9001 with
  | (port, url) => ⟨[port], [], ["Server running at " ++ url]⟩

/-! ## The client (`fetchGreeting` and its `then` continuation) -/

/-- An HTTP request as assembled by the client's `fetch` call. -/
structure Request where
  url : String
  method : String
  headers : List (String × String)
  body : String
deriving Repr, DecidableEq

/-- A `fetch` response; `body` is the JSON value that `response.json()`
resolves with. -/
structure Response where
  status : Nat
  ok : Bool
  headers : List (String × String)
  body : Json
deriving Repr

/-- The outcome of a `fetch` call: network rejection or a response. -/
inductive FetchResult where
  | reject : FetchResult
  | resolve (r : Response) : FetchResult

/-- A JavaScript value as seen by the client after JSON parsing: either
`undefined` or a JSON value. -/
inductive JsValue where
  | undef : JsValue
  | val (j : Json) : JsValue
deriving Repr

/-- JavaScript property access `v.k`: `none` models a thrown `TypeError`
(access on `undefined` or `null`); property access on other primitives
yields `undefined`; on objects it is key lookup. -/
def getProp : JsValue → String → Option JsValue
  | JsValue.undef, _ => none
  | JsValue.val Json.null, _ => none
  | JsValue.val (Json.obj kvs), k =>
      some (match List.lookup k kvs with
            | some v => JsValue.val v
            | none => JsValue.undef)
  | JsValue.val _, _ => some JsValue.undef

/-- The client's extraction of the greeting from a parsed response body:
`const { data } = await response.json(); return data.greeting;`.
`none` models an exception thrown along the way. -/
def extractGreeting (body : Json) : Option JsValue :=
  (getProp (JsValue.val body) "data").bind fun d => getProp d "greeting"

/-- The query document string of the client, embedded character for
character from the source. -/
def clientQueryDoc : String := "query \x7b greeting \x7d"

/-- The one request `fetchGreeting` constructs: POST to the fixed URL with a
JSON content type and the stringified `\x7b query: ... \x7d` object as body. -/
def clientRequest : Request :=
  ⟨"http://localhost:9001/", "POST",
   [("Content-Type", "application/json")],
   Json.render (Json.obj [("query", Json.str clientQueryDoc)])⟩

/-- The body of `fetchGreeting`, given a `fetch` oracle: the list of requests
issued and the function's outcome (`none` = the returned promise rejects). -/
def fetchGreeting (fetch : Request → FetchResult) :
    List Request × Option JsValue :=
  match fetch clientRequest with
  | FetchResult.reject => ([clientRequest], none)
  | FetchResult.resolve resp => ([clientRequest], extractGreeting resp.body)

/-- The DOM, as the association of element ids to text contents. -/
structure Dom where
  elems : List (String × String)
deriving Repr, DecidableEq

/-- First entry with the given id in an id/text association list. -/
def lookupId (i : String) : List (String × String) → Option String
  | [] => none
  | (k, v) :: rest => if k = i then some v else lookupId i rest

/-- `document.getElementById(i)` followed by reading the text content:
`none` when no element with the id exists. -/
def Dom.getElementById (d : Dom) (i : String) : Option String :=
  lookupId i d.elems

/-- Replace the text of the first entry with the given id (the element that
`getElementById` returns), leaving all other entries unchanged. -/
def setTextAux (i s : String) : List (String × String) → List (String × String)
  | [] => []
  | (k, v) :: rest => if k = i then (k, s) :: rest else (k, v) :: setTextAux i s rest

/-- Assignment to the text content of the element with id `i`. -/
def Dom.setTextContent (d : Dom) (i : String) (s : String) : Dom :=
  ⟨setTextAux i s d.elems⟩

mutual

/-- JavaScript string coercion of a value, as applied on assignment. -/
def jsStringOf : JsValue → String
  | JsValue.undef => "undefined"
  | JsValue.val j => jsonStringOf j

/-- JavaScript string coercion of a JSON value. -/
def jsonStringOf : Json → String
  | Json.null => "null"
  | Json.bool b => cond b "true" "false"
  | Json.num n => toString n
  | Json.str s => s
  | Json.arr xs => arrStringOf xs
  | Json.obj _ => "[object Object]"

/-- `Array.prototype.toString`: elements joined by commas, with null
elements rendered empty. -/
def arrStringOf : List Json → String
  | [] => ""
  | [x] => arrElemStr x
  | x :: xs => arrElemStr x ++ "," ++ arrStringOf xs

/-- One array element under `Array.prototype.join`. -/
def arrElemStr : Json → String
  | Json.null => ""
  | j => jsonStringOf j

end

/-- The string stored by an assignment to `textContent`: JavaScript string
coercion of the value, except that `null` is mapped to the empty string. -/
def textContentString : JsValue → String
  | JsValue.undef => "undefined"
  | JsValue.val Json.null => ""
  | JsValue.val (Json.str s) => s
  | JsValue.val j => jsonStringOf j

/-- Whether the client run completed or an exception / rejection propagated
uncaught (the source installs no catch handler). -/
inductive ClientOutcome where
  | done : ClientOutcome
  | uncaught : ClientOutcome
deriving Repr, DecidableEq

/-- The whole client script: run `fetchGreeting`, and in the `then`
continuation write the greeting into the element with id `greeting`.
Returns the requests issued, the final DOM, and the outcome. -/
def runClient (fetch : Request → FetchResult) (dom : Dom) :
    List Request × Dom × ClientOutcome :=
  match fetchGreeting fetch with
  | (reqs, none) => (reqs, dom, ClientOutcome.uncaught)
  | (reqs, some g) =>
      match dom.getElementById "greeting" with
      | none => (reqs, dom, ClientOutcome.uncaught)
      | some _ =>
          (reqs, dom.setTextContent "greeting" (textContentString g),
           ClientOutcome.done)

/-! ## Helper lemmas -/

/-- Parsing the server's `typeDefs` SDL string yields the concrete schema. -/
theorem parseSDL_typeDefs : parseSDL typeDefs = some schemaOfServer := rfl

/-- `handleRequest` on a body whose `query` string parses reduces to
execution of the parsed fields against the server schema. -/
theorem handleRequest_eq_execute (q : String) (fields : List String)
    (h : parseQueryDoc q = some fields) :
    handleRequest (Json.obj [("query", Json.str q)]) =
      executeQuery schemaOfServer resolverMap fields := by
  unfold handleRequest
  have hl : (Json.obj [("query", Json.str q)]).lookup "query" = some (Json.str q) := rfl
  rw [hl]
  simp only [h, parseSDL_typeDefs]

/-- List-level form: replacing the text of an existing id makes lookup of
that id return the new text. -/
theorem lookupId_setTextAux_self (elems : List (String × String)) (i s : String)
    (h : (lookupId i elems).isSome = true) :
    lookupId i (setTextAux i s elems) = some s := by
  induction elems with
  | nil => exact absurd h (by simp [lookupId])
  | cons p rest ih =>
      rcases p with ⟨k, v⟩
      by_cases hk : k = i
      · show lookupId i (if k = i then (k, s) :: rest else (k, v) :: setTextAux i s rest) = some s
        rw [if_pos hk]
        show (if k = i then some s else lookupId i rest) = some s
        rw [if_pos hk]
      · have h2 : (lookupId i rest).isSome = true := by
          have e : lookupId i ((k, v) :: rest) = lookupId i rest := by
            show (if k = i then some v else lookupId i rest) = lookupId i rest
            rw [if_neg hk]
          rw [e] at h
          exact h
        show lookupId i (if k = i then (k, s) :: rest else (k, v) :: setTextAux i s rest) = some s
        rw [if_neg hk]
        show (if k = i then some v else lookupId i (setTextAux i s rest)) = some s
        rw [if_neg hk]
        exact ih h2

/-- List-level form: replacing the text of one id leaves lookup of any other
id unchanged. -/
theorem lookupId_setTextAux_other (elems : List (String × String)) (i j s : String)
    (h : j ≠ i) :
    lookupId j (setTextAux i s elems) = lookupId j elems := by
  induction elems with
  | nil => rfl
  | cons p rest ih =>
      rcases p with ⟨k, v⟩
      by_cases hk : k = i
      · have hkj : ¬k = j := fun e => h (e ▸ hk)
        show lookupId j (if k = i then (k, s) :: rest else (k, v) :: setTextAux i s rest) =
          lookupId j ((k, v) :: rest)
        rw [if_pos hk]
        show (if k = j then some s else lookupId j rest) =
          (if k = j then some v else lookupId j rest)
        rw [if_neg hkj, if_neg hkj]
      · show lookupId j (if k = i then (k, s) :: rest else (k, v) :: setTextAux i s rest) =
          lookupId j ((k, v) :: rest)
        rw [if_neg hk]
        show (if k = j then some v else lookupId j (setTextAux i s rest)) =
          (if k = j then some v else lookupId j rest)
        by_cases hkj : k = j
        · rw [if_pos hkj, if_pos hkj]
        · rw [if_neg hkj, if_neg hkj]
          exact ih

/-- Setting the text content of an existing element updates its text. -/
theorem getElementById_setTextContent_self (d : Dom) (i s : String)
    (h : (d.getElementById i).isSome = true) :
    (d.setTextContent i s).getElementById i = some s :=
  lookupId_setTextAux_self d.elems i s h

/-- Setting the text content of one element leaves every other id unchanged. -/
theorem getElementById_setTextContent_other (d : Dom) (i j s : String)
    (h : j ≠ i) :
    (d.setTextContent i s).getElementById j = d.getElementById j :=
  lookupId_setTextAux_other d.elems i j s h

/-- `fetchGreeting` always issues exactly the one fixed request. -/
theorem fetchGreeting_requests (fetch : Request → FetchResult) :
    (fetchGreeting fetch).fst = [clientRequest] := by
  unfold fetchGreeting
  cases fetch clientRequest <;> rfl

/-! ## Claim theorems -/

/-- Claim C1: for every invocation of the greeting resolver — and hence for
every well-formed `query \x7b greeting \x7d` document POSTed to the service —
the response is exactly the JSON object
`\x7b"data":\x7b"greeting":"Hello world"\x7d\x7d`. -/
theorem greeting_query_response (q : String)
    (h : parseQueryDoc q = some ["greeting"]) :
    handleRequest (Json.obj [("query", Json.str q)]) =
      Json.obj [("data", Json.obj [("greeting", Json.str "Hello world")])] := by
  rw [handleRequest_eq_execute q ["greeting"] h]
  rfl

/-- Witness for C1: the concrete wire query document. -/
theorem greeting_query_response_witness :
    parseQueryDoc "query \x7b greeting \x7d" = some ["greeting"] ∧
    handleRequest (Json.obj [("query", Json.str "query \x7b greeting \x7d")]) =
      Json.obj [("data", Json.obj [("greeting", Json.str "Hello world")])] :=
  ⟨rfl, greeting_query_response "query \x7b greeting \x7d" rfl⟩

/-- Claim C2: the schema parsed from `typeDefs` has exactly one root
operation type (`query: Query`), no mutation or subscription root, and the
`Query` type has exactly one field `greeting` of nullable type `String`. -/
theorem schema_single_greeting_field :
    parseSDL typeDefs = some schemaOfServer ∧
    schemaOfServer.queryType = some "Query" ∧
    schemaOfServer.mutationType = none ∧
    schemaOfServer.subscriptionType = none ∧
    schemaOfServer.types = [⟨"Query", [⟨"greeting", "String", false⟩]⟩] ∧
    schemaOfServer.queryFields = [⟨"greeting", "String", false⟩] :=
  ⟨rfl, rfl, rfl, rfl, rfl, rfl⟩

/-- Claim C3: every invocation of `fetchGreeting` issues exactly one POST
request to `http://localhost:9001/` with a JSON content type, whose body is
the JSON serialization of the `\x7b query: ... \x7d` object, with the query
document string in it character for character. -/
theorem fetchGreeting_single_exact_request (fetch : Request → FetchResult) :
    (fetchGreeting fetch).fst = [clientRequest] ∧
    clientRequest.url = "http://localhost:9001/" ∧
    clientRequest.method = "POST" ∧
    clientRequest.headers = [("Content-Type", "application/json")] ∧
    clientRequest.body = Json.render (Json.obj [("query", Json.str clientQueryDoc)]) ∧
    clientRequest.body = "\x7b\"query\":\"" ++ clientQueryDoc ++ "\"\x7d" ∧
    clientQueryDoc = "query \x7b greeting \x7d" :=
  ⟨fetchGreeting_requests fetch, rfl, rfl, rfl, rfl, rfl, rfl⟩

/-- Claim C4: if `fetch` resolves with a body whose JSON is
`\x7b"data":\x7b"greeting":X\x7d\x7d` and the `greeting` element exists, the
client sets that element's text content to exactly `X` and performs no other
DOM mutation. -/
theorem client_renders_exact_greeting (X : String) (resp : Response)
    (fetch : Request → FetchResult) (dom : Dom)
    (hf : fetch clientRequest = FetchResult.resolve resp)
    (hb : resp.body = Json.obj [("data", Json.obj [("greeting", Json.str X)])])
    (hdom : (dom.getElementById "greeting").isSome = true) :
    runClient fetch dom =
      ([clientRequest], dom.setTextContent "greeting" X, ClientOutcome.done) ∧
    (dom.setTextContent "greeting" X).getElementById "greeting" = some X ∧
    ∀ i, i ≠ "greeting" →
      (dom.setTextContent "greeting" X).getElementById i = dom.getElementById i := by
  have hex : extractGreeting resp.body = some (JsValue.val (Json.str X)) := by
    rw [hb]
    rfl
  have hfg : fetchGreeting fetch = ([clientRequest], some (JsValue.val (Json.str X))) := by
    unfold fetchGreeting
    simp only [hf, hex]
  refine ⟨?_, getElementById_setTextContent_self dom "greeting" X hdom,
    fun i hi => getElementById_setTextContent_other dom "greeting" i X hi⟩
  unfold runClient
  simp only [hfg]
  cases hg : dom.getElementById "greeting" with
  | none => rw [hg] at hdom; simp at hdom
  | some t => simp only [hg]; rfl

/-- Witness for C4: a mocked fetch returning greeting `X` updates a
one-element DOM. -/
theorem client_renders_exact_greeting_witness :
    ((⟨[("greeting", "")]⟩ : Dom).getElementById "greeting").isSome = true ∧
    runClient (fun _ => FetchResult.resolve
        ⟨200, true, [], Json.obj [("data", Json.obj [("greeting", Json.str "X")])]⟩)
        ⟨[("greeting", "")]⟩ =
      ([clientRequest], Dom.setTextContent ⟨[("greeting", "")]⟩ "greeting" "X",
       ClientOutcome.done) :=
  ⟨rfl, (client_renders_exact_greeting "X"
    ⟨200, true, [], Json.obj [("data", Json.obj [("greeting", Json.str "X")])]⟩
    (fun _ => FetchResult.resolve
      ⟨200, true, [], Json.obj [("data", Json.obj [("greeting", Json.str "X")])]⟩)
    ⟨[("greeting", "")]⟩ rfl rfl rfl).1⟩

/-- Claim C5: any query document selecting a field not in the schema gets a
response with a nonempty `errors` array and no `data` at all (hence no key
for the unknown field); the behaviour is the engine's standard validation
error, the service defining no custom error handling. -/
theorem unknown_field_yields_errors (q : String) (fields : List String) (f : String)
    (hq : parseQueryDoc q = some fields) (hf : f ∈ fields)
    (hu : schemaOfServer.hasQueryField f = false) :
    (handleRequest (Json.obj [("query", Json.str q)])).lookup "errors" =
      some (Json.arr ((fields.filter fun g => !schemaOfServer.hasQueryField g).map
        unknownFieldError)) ∧
    (fields.filter fun g => !schemaOfServer.hasQueryField g).map unknownFieldError ≠ [] ∧
    (handleRequest (Json.obj [("query", Json.str q)])).lookup "data" = none := by
  rw [handleRequest_eq_execute q fields hq]
  have hall : (fields.all fun g => schemaOfServer.hasQueryField g) = false := by
    cases hall2 : fields.all fun g => schemaOfServer.hasQueryField g with
    | false => rfl
    | true =>
        have := List.all_eq_true.mp hall2 f hf
        rw [hu] at this
        cases this
  have hexec : executeQuery schemaOfServer resolverMap fields =
      Json.obj [("errors",
        Json.arr ((fields.filter fun g => !schemaOfServer.hasQueryField g).map
          unknownFieldError))] := by
    unfold executeQuery
    rw [hall]
    simp
  rw [hexec]
  refine ⟨rfl, ?_, rfl⟩
  have hmem : f ∈ fields.filter fun g => !schemaOfServer.hasQueryField g :=
    List.mem_filter.mpr ⟨hf, by rw [hu]; rfl⟩
  exact List.ne_nil_of_mem (List.mem_map_of_mem unknownFieldError hmem)

/-- Witness for C5: the query document selecting the unknown field `bogus`. -/
theorem unknown_field_yields_errors_witness :
    parseQueryDoc "\x7b bogus \x7d" = some ["bogus"] ∧
    (handleRequest (Json.obj [("query", Json.str "\x7b bogus \x7d")])).lookup "errors" =
      some (Json.arr [unknownFieldError "bogus"]) ∧
    (handleRequest (Json.obj [("query", Json.str "\x7b bogus \x7d")])).lookup "data" = none :=
  ⟨rfl,
   (unknown_field_yields_errors "\x7b bogus \x7d" ["bogus"] "bogus" rfl
      (List.mem_singleton.mpr rfl) rfl).1,
   (unknown_field_yields_errors "\x7b bogus \x7d" ["bogus"] "bogus" rfl
      (List.mem_singleton.mpr rfl) rfl).2.2⟩

/-- Claim C6: the greeting resolver is a pure constant function: any
sequence of invocations, of any length and order, returns `Hello world`
every time, independent of prior calls. -/
theorem resolver_constant (calls : List Unit) :
    calls.map resolvers.Query.greeting = List.replicate calls.length "Hello world" ∧
    ∀ u : Unit, resolvers.Query.greeting u = "Hello world" := by
  refine ⟨?_, fun u => rfl⟩
  induction calls with
  | nil => rfl
  | cons c cs ih => simp [List.replicate, ih, resolvers.Query.greeting]

/-- Claim C7: if `fetch` rejects, or any later step of `fetchGreeting`
throws, the rejection propagates uncaught (there is no catch handler), no
DOM write occurs, and still exactly the one request was issued. -/
theorem rejection_propagates_uncaught (fetch : Request → FetchResult) (dom : Dom)
    (h : fetch clientRequest = FetchResult.reject ∨ (fetchGreeting fetch).snd = none) :
    runClient fetch dom = ([clientRequest], dom, ClientOutcome.uncaught) := by
  have hfg : fetchGreeting fetch = ([clientRequest], none) := by
    cases h with
    | inl h1 =>
        unfold fetchGreeting
        simp only [h1]
    | inr h2 =>
        have h1 := fetchGreeting_requests fetch
        cases hfe : fetchGreeting fetch with
        | mk a b =>
            rw [hfe] at h1 h2
            simp only at h1 h2
            rw [h1, h2]
  unfold runClient
  rw [hfg]

/-- Witness for C7: a rejecting fetch leaves a one-element DOM untouched. -/
theorem rejection_propagates_uncaught_witness :
    runClient (fun _ => FetchResult.reject) ⟨[("greeting", "old")]⟩ =
      ([clientRequest], ⟨[("greeting", "old")]⟩, ClientOutcome.uncaught) :=
  rejection_propagates_uncaught (fun _ => FetchResult.reject) ⟨[("greeting", "old")]⟩
    (Or.inl rfl)

/-- Claim C8: on startup the service binds exactly the hardcoded port 9001,
reads no environment variables, and writes the listening URL to the console
exactly once. -/
theorem startup_effects_exact :
    serverStartup = ⟨[9001], [], ["Server running at http://localhost:9001/"]⟩ ∧
    serverStartup.boundPorts = [9001] ∧
    serverStartup.envReads = [] ∧
    serverStartup.consoleLines.length = 1 :=
  ⟨rfl, rfl, rfl, rfl⟩

/-- Claim C9: if the parsed response body is an object with no `data` key
(for example an errors-only response), `fetchGreeting` throws reading
`.greeting` of `undefined`, nothing is rendered, and the DOM is unchanged. -/
theorem missing_data_key_uncaught (fetch : Request → FetchResult) (dom : Dom)
    (resp : Response) (kvs : List (String × Json))
    (hf : fetch clientRequest = FetchResult.resolve resp)
    (hb : resp.body = Json.obj kvs)
    (hk : List.lookup "data" kvs = none) :
    (fetchGreeting fetch).snd = none ∧
    runClient fetch dom = ([clientRequest], dom, ClientOutcome.uncaught) := by
  have hex : extractGreeting resp.body = none := by
    rw [hb]
    have e : getProp (JsValue.val (Json.obj kvs)) "data" =
        some (match List.lookup "data" kvs with
              | some v => JsValue.val v
              | none => JsValue.undef) := rfl
    unfold extractGreeting
    rw [e, hk]
    rfl
  have hfg : fetchGreeting fetch = ([clientRequest], none) := by
    unfold fetchGreeting
    simp only [hf, hex]
  refine ⟨by rw [hfg], ?_⟩
  unfold runClient
  rw [hfg]

/-- Witness for C9: an errors-only response body leaves the DOM unchanged. -/
theorem missing_data_key_uncaught_witness :
    runClient (fun _ => FetchResult.resolve ⟨200, true, [], Json.obj [("errors", Json.arr [])]⟩)
        ⟨[("greeting", "old")]⟩ =
      ([clientRequest], ⟨[("greeting", "old")]⟩, ClientOutcome.uncaught) :=
  (missing_data_key_uncaught
    (fun _ => FetchResult.resolve ⟨200, true, [], Json.obj [("errors", Json.arr [])]⟩)
    ⟨[("greeting", "old")]⟩ ⟨200, true, [], Json.obj [("errors", Json.arr [])]⟩
    [("errors", Json.arr [])] rfl rfl rfl).2

/-- Claim C10: the client's observable behaviour depends only on the
`data.greeting` extraction from the parsed body: two resolved responses
agreeing there produce identical runs, regardless of status code, `ok` flag,
headers, or other keys in the body. -/
theorem output_depends_only_on_data_greeting
    (f1 f2 : Request → FetchResult) (r1 r2 : Response) (dom : Dom)
    (h1 : f1 clientRequest = FetchResult.resolve r1)
    (h2 : f2 clientRequest = FetchResult.resolve r2)
    (hg : extractGreeting r1.body = extractGreeting r2.body) :
    runClient f1 dom = runClient f2 dom := by
  have e1 : fetchGreeting f1 = ([clientRequest], extractGreeting r1.body) := by
    unfold fetchGreeting
    simp only [h1]
  have e2 : fetchGreeting f2 = ([clientRequest], extractGreeting r2.body) := by
    unfold fetchGreeting
    simp only [h2]
  unfold runClient
  rw [e1, e2, hg]

/-- Witness for C10: a 200 response and a 500 response with extra headers
and an extra `errors` key but the same `data.greeting` yield the same run. -/
theorem output_depends_only_on_data_greeting_witness :
    runClient (fun _ => FetchResult.resolve
        ⟨200, true, [], Json.obj [("data", Json.obj [("greeting", Json.str "hi")])]⟩)
        ⟨[("greeting", "")]⟩ =
      runClient (fun _ => FetchResult.resolve
        ⟨500, false, [("x-powered-by", "t")],
         Json.obj [("data", Json.obj [("greeting", Json.str "hi"), ("extra", Json.null)]),
                   ("errors", Json.arr [])]⟩)
        ⟨[("greeting", "")]⟩ :=
  output_depends_only_on_data_greeting
    (fun _ => FetchResult.resolve
      ⟨200, true, [], Json.obj [("data", Json.obj [("greeting", Json.str "hi")])]⟩)
    (fun _ => FetchResult.resolve
      ⟨500, false, [("x-powered-by", "t")],
       Json.obj [("data", Json.obj [("greeting", Json.str "hi"), ("extra", Json.null)]),
                 ("errors", Json.arr [])]⟩)
    ⟨200, true, [], Json.obj [("data", Json.obj [("greeting", Json.str "hi")])]⟩
    ⟨500, false, [("x-powered-by", "t")],
     Json.obj [("data", Json.obj [("greeting", Json.str "hi"), ("extra", Json.null)]),
               ("errors", Json.arr [])]⟩
    ⟨[("greeting", "")]⟩ rfl rfl rfl
